import Mathlib

/-
Verification of the rag-data-engineers-demo ingestion/retrieval pipeline.

The development shallowly embeds the four Python sources:
  - knowledge/scripts/valid_filters.py  (initialize_knowledge_filters)
  - knowledge/scripts/load_posts.py     (create_document_metadata,
                                         generate_documents, load_posts)
  - knowledge/scripts/save_posts.py     (fetch_and_save_posts)
  - agent.py                            (module-level wiring of the agent)

Untyped JSON data is modelled by the inductive `JValue`; Python dicts are
association lists; a Python function that can raise is modelled with
`Except` or with an explicit outcome field; a Python function that ends
without a `return` statement yields the Python value `None`, modelled as
`JValue.null` (or an `Option` being `none`) where the return value matters.
Operations owned by the external agno library (the Knowledge Store search
and the semantic chunker) are not part of the repository; they are modelled
from the specification and marked as such in their doc comments.
-/

set_option autoImplicit false

namespace Rag

/-- Untyped JSON values as produced by `json.load` / `resp.json()` in the
Python sources. Objects are association lists of string keys to values. -/
inductive JValue where
  | null
  | bool (b : Bool)
  | num (n : Int)
  | str (s : String)
  | arr (xs : List JValue)
  | obj (fields : List (String × JValue))
deriving Repr

/-- Lookup of a key in a Python dict modelled as an association list:
`jget r k` is `r.get(k)` (first binding wins, `none` when absent). -/
def jget : List (String × JValue) → String → Option JValue
  | [], _ => none
  | p :: ps, k => if p.1 = k then some p.2 else jget ps k

/-- Embedding of `agno.document.Document` as constructed in
`create_document_metadata` (load_posts.py): a content, a name and a
metadata mapping. -/
structure Document where
  content : JValue
  name : JValue
  meta_data : List (String × JValue)
deriving Repr

/-- Argument passed to `initialize_knowledge_filters` (valid_filters.py).
`kb filters` models an agno `AgentKnowledge` object whose
`valid_metadata_filters` attribute holds either `None` or a Python set of
strings (modelled as a `Finset String`); `nonKB` models any argument on
which the attribute access raises (e.g. an object without that attribute),
exercising the `except` branch of the Python function. -/
inductive KBObject where
  | kb (valid_metadata_filters : Option (Finset String))
  | nonKB

/-- Body of the `try` block of `initialize_knowledge_filters`
(valid_filters.py lines 8-13): if `valid_metadata_filters` is `None` set it
to the empty set, then add the key `"user_id"`; on a `nonKB` argument the
attribute access raises. -/
def initFiltersBody : KBObject → Except String KBObject
  | .kb fs => .ok (.kb (some (insert "user_id" (fs.getD ∅))))
  | .nonKB => .error "AttributeError"

/-- Observable outcome of one call to `initialize_knowledge_filters`: the
knowledge-base object after the call, the error message printed by the
`except` branch (if any), and the Python return value, which is always
`None` (the function has no `return` statement). -/
structure InitRun where
  result : KBObject
  printed : Option String
  ret : Option Unit

/-- Embedding of `initialize_knowledge_filters` (valid_filters.py lines
1-16): the whole body sits in a `try` whose `except Exception` branch only
prints the failure, so the function itself never raises and always returns
`None`; on the failure branch the argument is left untouched. -/
def initialize_knowledge_filters (o : KBObject) : InitRun :=
  match initFiltersBody o with
  | .ok o2 => { result := o2, printed := none, ret := none }
  | .error e =>
      { result := o
        printed := some ("Failed to initialize knowledge filters: " ++ e)
        ret := none }

/-- Registered filter key set of a knowledge-base object: the value of
`valid_metadata_filters`, the empty set when it is `None` or the object is
not a knowledge base. -/
def registeredKeys : KBObject → Finset String
  | .kb (some s) => s
  | .kb none => ∅
  | .nonKB => ∅

/-- Spec §4.5 `register_filter_key`: adding one key to the registered
filter key set. In the source this is `valid_metadata_filters.add(key)`
(valid_filters.py line 13), a Python set insertion. -/
def register_filter_key (key : String) (s : Finset String) : Finset String :=
  insert key s

/-- Registered filter key set obtained in agent.py: the knowledge base
starts with `valid_metadata_filters = None` and line 50 calls
`initialize_knowledge_filters` on it. -/
def initialRegistered : Finset String :=
  registeredKeys (initialize_knowledge_filters (KBObject.kb none)).result

/-- Record stored in the Knowledge Store: a chunk text together with the
filter mapping it was tagged with at write time. Filter values are the
scalar values of spec §3; in this domain they are integers (`user_id`). -/
structure StoredChunk where
  text : String
  filters : List (String × Int)
deriving Repr

/-- Error raised by the Knowledge Store when a query filter references a
key outside the registered filter key set (spec §4.5, §7). -/
inductive SearchError where
  | invalidFilter (key : String)
deriving Repr, DecidableEq

/-- Exact-equality filter matching of spec §4.5: a stored record matches a
query filter when every provided key is bound in the record to the very
value the query gives. -/
def filterMatches (stored : List (String × Int)) (query : List (String × Int)) : Bool :=
  query.all (fun kv => stored.lookup kv.1 == some kv.2)

/-- Modelled from the spec: the Knowledge Store `search` operation lives in
the external agno library (reached through `agent.print_response` with
`knowledge_filters`, agent.py lines 52-55) and is not part of this
repository. Per spec §4.5 it rejects with `InvalidFilterError` when the
query filter references a key outside the registered filter key set, and
otherwise returns the stored records whose filters match the query by
exact equality on every provided key. Ranking does not affect the claims
proved here, so the matching records are returned in store order. -/
def search (registered : Finset String) (store : List StoredChunk)
    (query : List (String × Int)) : Except SearchError (List StoredChunk) :=
  match query.find? (fun kv => !(decide (kv.1 ∈ registered))) with
  | some kv => .error (.invalidFilter kv.1)
  | none => .ok (store.filter (fun c => filterMatches c.filters query))

/-- Content of one file under `knowledge/files`, as seen by
`generate_documents` (load_posts.py): either text that fails JSON parsing,
or a parsed JSON object (a record). -/
inductive FileContent where
  | malformed (raw : String)
  | record (fields : List (String × JValue))
deriving Repr

/-- One JSON file of the input directory: its file name and its content. -/
structure JFile where
  name : String
  content : FileContent
deriving Repr

/-- Embedding of `create_document_metadata` (load_posts.py lines 36-58):
builds the metadata mapping with `tags`/`reactions`/`views` defaulting to
empty list / empty mapping / `0`, the filter mapping
`user_id ↦ post_data.get("userId", 0)`, and a `Document` whose content is
`post_data["body"]` and whose name is `post_data["title"]`; the subscript
accesses raise `KeyError` when the key is absent (body is evaluated first,
matching the argument order of the `Document` constructor). -/
def create_document_metadata (post_data : List (String × JValue)) :
    Except String (Document × List (String × JValue)) :=
  match jget post_data "body" with
  | none => .error "KeyError: body"
  | some body =>
    match jget post_data "title" with
    | none => .error "KeyError: title"
    | some title =>
      .ok
        ({ content := body
           name := title
           meta_data :=
             [("tags", (jget post_data "tags").getD (.arr [])),
              ("reactions", (jget post_data "reactions").getD (.obj [])),
              ("views", (jget post_data "views").getD (.num 0))] },
         [("user_id", (jget post_data "userId").getD (.num 0))])

/-- Processing of a single file inside the `try` of `generate_documents`
(load_posts.py lines 72-82): JSON parsing of a malformed file raises
`JSONDecodeError`; a parsed record goes through
`create_document_metadata`, which may raise `KeyError`. -/
def processFile (f : JFile) : Except String (Document × List (String × JValue)) :=
  match f.content with
  | .malformed _ => .error "JSONDecodeError"
  | .record r => create_document_metadata r

/-- Test for the files whose JSON parsing fails. -/
def isMalformedFile (f : JFile) : Bool :=
  match f.content with
  | .malformed _ => true
  | .record _ => false

/-- Embedding of `generate_documents` (load_posts.py lines 61-89): every
file is processed inside its own `try`; a failure is printed and counted
here, and the loop continues with the next file. Returns the generated
`(Document, filters)` pairs in file order together with the number of
reported per-file errors. -/
def generate_documents : List JFile → List (Document × List (String × JValue)) × Nat
  | [] => ([], 0)
  | f :: fs =>
    match processFile f with
    | .ok d =>
      let r := generate_documents fs
      (d :: r.1, r.2)
    | .error _ =>
      let r := generate_documents fs
      (r.1, r.2 + 1)

/-- One `(document, filters)` pair handed to
`social_media_knowledge_base.load_documents` inside `load_posts`, together
with the environment fact whether that particular `load_documents` call
raises (e.g. a database error). -/
structure LoadItem where
  doc : Document
  filters : List (String × JValue)
  loadFails : Bool
deriving Repr

/-- The `for` loop inside the single `try` of `load_posts` (load_posts.py
lines 97-101): documents are loaded one at a time, in order; the first
raising `load_documents` call ends the loop with an exception, so it
returns the documents loaded before the failure and the caught error, if
any. -/
def loadLoop : List LoadItem → List Document × Option String
  | [] => ([], none)
  | i :: is =>
    if i.loadFails then ([], some "load error")
    else
      let r := loadLoop is
      (i.doc :: r.1, r.2)

/-- Final report printed by `load_posts`. -/
inductive BatchReport where
  | success (count : Nat)
  | caught (msg : String)
  | noDocuments
deriving Repr, DecidableEq

/-- Observable outcome of the `load_posts` batch job: the documents
actually written to the Knowledge Store, the final report, and the process
exit code. -/
structure BatchRun where
  loaded : List Document
  report : BatchReport
  exitCode : Nat
deriving Repr

/-- Embedding of `load_posts` (load_posts.py lines 92-113), parametrised by
the generated pairs and the per-call failure facts: with no documents it
prints a notice; otherwise it runs the loading loop inside one `try` whose
`except` prints the caught error. No exception escapes, so the script
always exits with code 0. -/
def load_posts (items : List LoadItem) : BatchRun :=
  if items.isEmpty then { loaded := [], report := .noDocuments, exitCode := 0 }
  else
    match loadLoop items with
    | (ds, none) => { loaded := ds, report := .success items.length, exitCode := 0 }
    | (ds, some m) => { loaded := ds, report := .caught m, exitCode := 0 }

/-- Knowledge Store operations visible in a program run of one of the two
entry points. -/
inductive TraceEvent where
  | initFilters
  | storeWrite
  | storeSearch
deriving Repr, DecidableEq

/-- Store-operation trace of running agent.py top to bottom: constructing
the knowledge base and the agent performs no store operation; line 50 runs
`initialize_knowledge_filters`; lines 52-55 run `agent.print_response`
with `knowledge_filters`, a Knowledge Store query. -/
def agentTrace : List TraceEvent :=
  [.initFilters, .storeSearch]

/-- The `load_documents` calls actually executed by the `load_posts` loop:
every item up to and including the first failing one. -/
def loadAttempts : List LoadItem → List LoadItem
  | [] => []
  | i :: is => if i.loadFails then [i] else i :: loadAttempts is

/-- Store-operation trace of running load_posts.py top to bottom: the
script reads files and then performs one Knowledge Store write per
executed `load_documents` call; nothing in the script calls
`initialize_knowledge_filters`. -/
def loadPostsTrace (items : List LoadItem) : List TraceEvent :=
  (loadAttempts items).map (fun _ => TraceEvent.storeWrite)

/-- Checker for the initialization discipline of spec §4.5: every store
write or search of the trace is preceded by an `initFilters` event. -/
def opsInitializedFrom : Bool → List TraceEvent → Bool
  | _, [] => true
  | _, TraceEvent.initFilters :: es => opsInitializedFrom true es
  | seen, TraceEvent.storeWrite :: es => seen && opsInitializedFrom seen es
  | seen, TraceEvent.storeSearch :: es => seen && opsInitializedFrom seen es

/-- Every store operation of the trace happens after an initialization. -/
def allOpsInitialized (t : List TraceEvent) : Bool :=
  opsInitializedFrom false t

/-- Rendering of a JSON value inside the f-string
`f"post_\x7bpost_id\x7d.json"` of save_posts.py. The ids of this domain
are integers (spec §3), so only the scalar cases are exercised; container
values are abbreviated. -/
def pyStr : JValue → String
  | .null => "None"
  | .bool true => "True"
  | .bool false => "False"
  | .num n => toString n
  | .str s => s
  | .arr _ => "<list>"
  | .obj _ => "<dict>"

/-- File name chosen by `fetch_and_save_posts` for one post:
`post_<id>.json`, where the id is `post.get("id")` (the Python `None` when
absent). Defined on non-object values only for totality; the writing loop
raises before using it there. -/
def postFileName (p : JValue) : String :=
  match p with
  | .obj fields => "post_" ++ pyStr ((jget fields "id").getD .null) ++ ".json"
  | _ => ""

/-- How a run of `fetch_and_save_posts` ends: either the function returns a
Python value (the code has no `return` statement, so that value is the
Python `None`, i.e. `JValue.null`), or an uncaught exception propagates. -/
inductive SaveOutcome where
  | returned (value : JValue)
  | raised (msg : String)
deriving Repr

/-- Observable outcome of `fetch_and_save_posts`: the `(file name, file
content)` pairs written to the output directory, in order, and how the run
ended. Files written before an exception remain on disk (no rollback). -/
structure SaveRun where
  files : List (String × JValue)
  outcome : SaveOutcome
deriving Repr

/-- The `for post in posts` loop of save_posts.py lines 34-39: each object
post is dumped to `post_<id>.json`; a non-object post has no `.get`
attribute, so the loop raises there, keeping the files already written. -/
def writeLoop : List JValue → List (String × JValue) → SaveRun
  | [], acc => { files := acc.reverse, outcome := .returned .null }
  | p :: ps, acc =>
    match p with
    | .obj _ => writeLoop ps ((postFileName p, p) :: acc)
    | _ => { files := acc.reverse, outcome := .raised "AttributeError" }

/-- Embedding of `fetch_and_save_posts` (save_posts.py lines 30-40),
parametrised by the decoded JSON object of the HTTP response:
`posts = data.get("posts", [])` and then the writing loop. Iterating over
a non-list `posts` value raises (collapsing the exact Python exception
into one message). The function body contains no `return`, so a normal
run returns the Python `None`. -/
def fetch_and_save_posts (data : List (String × JValue)) : SaveRun :=
  match (jget data "posts").getD (.arr []) with
  | .arr posts => writeLoop posts []
  | _ => { files := [], outcome := .raised "TypeError" }

/-- Test for JSON objects, the posts the writing loop can save. -/
def isObj : JValue → Bool
  | .obj _ => true
  | _ => false

/-- Sentence delimiters used by the sentence-level segmentation of the
chunker model. -/
def isSentenceEnd (c : Char) : Bool :=
  c == '.' || c == '!' || c == '?'

/-- Modelled from the spec: sentence-level segmentation of a text (spec
§4.3, first step of the chunking algorithm; the chunker itself is the
agno `SemanticChunking` strategy configured in load_posts.py lines 30-32
and agent.py lines 36-38, external library code). Text is modelled as its
character list. `segUnits cs acc` scans `cs` with `acc` holding the
current sentence reversed; a delimiter closes the current unit, and a
trailing fragment forms a final unit. Empty text yields no unit. -/
def segUnits : List Char → List Char → List (List Char)
  | [], [] => []
  | [], acc => [acc.reverse]
  | c :: cs, acc =>
    if isSentenceEnd c then (c :: acc).reverse :: segUnits cs []
    else segUnits cs (c :: acc)

/-- Modelled from the spec: the greedy merging loop of spec §4.3 over a
current chunk `cur` (a nonempty list of units) and the remaining units.
The similarity test (cosine similarity of the running embedding against
the next unit at or above `similarity_threshold`) is abstracted as the
decision function `keep`, since embeddings are an opaque external service
(spec §1); every decision function is covered by the theorems below. -/
def groupGo (keep : List (List Char) → List Char → Bool) :
    List (List Char) → List (List Char) → List (List (List Char))
  | cur, [] => [cur]
  | cur, u :: us =>
    if keep cur u then groupGo keep (cur ++ [u]) us
    else cur :: groupGo keep [u] us

/-- Modelled from the spec: grouping of the sentence units into chunks
(spec §4.3); no unit yields no chunk, and otherwise the greedy loop starts
with the first unit as the open chunk. -/
def groupUnits (keep : List (List Char) → List Char → Bool) :
    List (List Char) → List (List (List Char))
  | [] => []
  | u :: us => groupGo keep [u] us

/-- Chunk of a document as in spec §3: its text (as a character list) and
its 0-based `sequence_index`. -/
structure Chunk where
  text : List Char
  sequence_index : Nat
deriving Repr, DecidableEq

/-- Modelled from the spec: the full `chunk(Document) → ordered sequence
of Chunk` contract of spec §4.3 — segment the content into sentence-level
units, merge adjacent units greedily by the `keep` decision, and index the
resulting chunks in order starting at 0. -/
def semanticChunk (keep : List (List Char) → List Char → Bool)
    (content : List Char) : List Chunk :=
  (((groupUnits keep (segUnits content [])).map List.flatten).enum).map
    (fun it => { text := it.2, sequence_index := it.1 })

/-- Concrete document used by the counterexamples and witnesses below. -/
def sampleDocument : Document :=
  { content := .str "Sentence one. Sentence two."
    name := .str "T"
    meta_data := [("tags", .arr []), ("reactions", .obj []), ("views", .num 0)] }

/-- Concrete second document, distinct from `sampleDocument`. -/
def sampleDocumentB : Document :=
  { content := .str "Another body."
    name := .str "U"
    meta_data := [("tags", .arr []), ("reactions", .obj []), ("views", .num 0)] }

/-- Concrete batch item whose `load_documents` call succeeds. -/
def sampleItem : LoadItem :=
  { doc := sampleDocument, filters := [("user_id", .num 7)], loadFails := false }

/-- Concrete batch item whose `load_documents` call raises. -/
def failingItem : LoadItem :=
  { doc := sampleDocument, filters := [("user_id", .num 7)], loadFails := true }

/-- Concrete batch item, after `failingItem`, whose own call would
succeed. -/
def okItem : LoadItem :=
  { doc := sampleDocumentB, filters := [("user_id", .num 8)], loadFails := false }

/-- Concrete post record shaped like the example in the save_posts.py
docstring. -/
def demoPost : JValue :=
  .obj [("id", .num 1), ("title", .str "T"), ("body", .str "B"),
        ("userId", .num 7)]

/-- Concrete decoded API response carrying one post. -/
def demoData : List (String × JValue) :=
  [("posts", .arr [demoPost]), ("total", .num 1)]

/-- Concrete decoded API response with no `posts` field. -/
def demoDataNoPosts : List (String × JValue) :=
  [("total", .num 0)]

/-- Concrete full record for the loader witness. -/
def demoRecord : List (String × JValue) :=
  [("id", .num 1), ("title", .str "T"), ("body", .str "B"),
   ("tags", .arr [.str "history"]),
   ("reactions", .obj [("likes", .num 192)]),
   ("views", .num 305), ("userId", .num 121)]

/-- Concrete record missing the optional fields. -/
def demoRecordBare : List (String × JValue) :=
  [("title", .str "T2"), ("body", .str "B2")]

/-- Concrete valid input file. -/
def goodFileA : JFile :=
  { name := "post_1.json", content := .record demoRecord }

/-- Concrete second valid input file. -/
def goodFileB : JFile :=
  { name := "post_2.json", content := .record demoRecordBare }

/-- Concrete input file whose JSON parsing fails. -/
def badFile : JFile :=
  { name := "post_3.json", content := .malformed "not json" }

end Rag

namespace Rag

/-! Helper lemmas, shared by the claim theorems below. -/

/-- Unfolding of `generate_documents` as a filter of the per-file results:
the documents are the successful results in file order, and the error
count is the number of failing files. -/
theorem generate_documents_eq (files : List JFile) :
    generate_documents files
      = (files.filterMap (fun f => (processFile f).toOption),
         files.countP (fun f => !(processFile f).isOk)) := by
  induction files with
  | nil => rfl
  | cons f fs ih =>
    cases h : processFile f with
    | ok d =>
      simp [generate_documents, h, ih, List.filterMap_cons, List.countP_cons,
        Except.toOption, Except.isOk, Except.toBool]
    | error e =>
      simp [generate_documents, h, ih, List.filterMap_cons, List.countP_cons,
        Except.toOption, Except.isOk, Except.toBool]

/-- Every input file becomes either a document or a reported error. -/
theorem generate_documents_total (files : List JFile) :
    (generate_documents files).1.length + (generate_documents files).2
      = files.length := by
  induction files with
  | nil => rfl
  | cons f fs ih =>
    cases h : processFile f with
    | ok d =>
      simp [generate_documents, h]
      omega
    | error e =>
      simp [generate_documents, h]
      omega

/-- The documents written by the loading loop are exactly the documents of
the items before the first failing one. -/
theorem loadLoop_fst (items : List LoadItem) :
    (loadLoop items).1
      = (items.takeWhile (fun i => !i.loadFails)).map LoadItem.doc := by
  induction items with
  | nil => rfl
  | cons i is ih =>
    cases h : i.loadFails with
    | true => simp [loadLoop, h, List.takeWhile_cons]
    | false => simp [loadLoop, h, List.takeWhile_cons, ih]

/-- Membership in the registered filter key set produced by agent.py line
50 is exactly being the key `"user_id"`. -/
theorem mem_initialRegistered (x : String) :
    x ∈ initialRegistered ↔ x = "user_id" := by
  simp [initialRegistered, initialize_knowledge_filters, initFiltersBody,
    registeredKeys]

/-- C7: `register_filter_key` is idempotent — registering a key twice
leaves the registered filter key set in the same state as registering it
once — and running `initialize_knowledge_filters` a second time on the
same knowledge base leaves `valid_metadata_filters` unchanged. -/
theorem c7_register_filter_key_idempotent :
    (∀ (k : String) (s : Finset String),
      register_filter_key k (register_filter_key k s) = register_filter_key k s)
    ∧ ∀ o : KBObject,
        (initialize_knowledge_filters (initialize_knowledge_filters o).result).result
          = (initialize_knowledge_filters o).result := by
  constructor
  · intro k s
    simp [register_filter_key]
  · intro o
    cases o with
    | kb fs => simp [initialize_knowledge_filters, initFiltersBody]
    | nonKB => rfl

/-- C9: `initialize_knowledge_filters` never propagates an exception: the
call always terminates with the Python return value `None`, and when the
`try` body fails the error is only printed and the knowledge base is left
unchanged. -/
theorem c9_initialize_never_raises (o : KBObject) :
    (initialize_knowledge_filters o).ret = none
    ∧ ((initFiltersBody o).isOk = false →
        (initialize_knowledge_filters o).result = o
        ∧ (initialize_knowledge_filters o).printed.isSome = true) := by
  cases o with
  | kb fs =>
    refine ⟨rfl, ?_⟩
    intro h
    simp [initFiltersBody, Except.isOk, Except.toBool] at h
  | nonKB => exact ⟨rfl, fun _ => ⟨rfl, rfl⟩⟩

/-- C9 witness: the failure branch, exercised at the concrete argument
without the `valid_metadata_filters` attribute. -/
theorem c9_initialize_never_raises_witness :
    (initialize_knowledge_filters KBObject.nonKB).ret = none
    ∧ (initialize_knowledge_filters KBObject.nonKB).result = KBObject.nonKB
    ∧ (initialize_knowledge_filters KBObject.nonKB).printed.isSome = true := by
  have h := c9_initialize_never_raises KBObject.nonKB
  exact ⟨h.1, h.2 (by rfl)⟩

/-- C1: with the registered filter key set produced by
`initialize_knowledge_filters` on the fresh knowledge base (exactly the
singleton `"user_id"`), a `search` whose query filter contains a key that
was never registered raises `InvalidFilterError` and never returns a
result set — in particular never an empty one. -/
theorem c1_unregistered_filter_key_raises
    (store : List StoredChunk) (query : List (String × Int))
    (k : String) (v : Int) (hmem : (k, v) ∈ query) (hk : k ≠ "user_id") :
    (∃ k2, search initialRegistered store query
        = Except.error (SearchError.invalidFilter k2))
    ∧ ∀ res, search initialRegistered store query ≠ Except.ok res := by
  have hfind : ∃ kv, query.find? (fun kv => !(decide (kv.1 ∈ initialRegistered)))
      = some kv := by
    cases hq : query.find? (fun kv => !(decide (kv.1 ∈ initialRegistered))) with
    | some kv => exact ⟨kv, rfl⟩
    | none =>
      have hall := List.find?_eq_none.mp hq (k, v) hmem
      simp [mem_initialRegistered] at hall
      exact absurd hall hk
  obtain ⟨kv, hkv⟩ := hfind
  have hsearch : search initialRegistered store query
      = Except.error (SearchError.invalidFilter kv.1) := by
    simp [search, hkv]
  refine ⟨⟨kv.1, hsearch⟩, ?_⟩
  intro res hres
  rw [hsearch] at hres
  exact Except.noConfusion hres

/-- C1 witness: the concrete unregistered key `"account_id"` of spec §8. -/
theorem c1_unregistered_filter_key_raises_witness :
    (∃ k2, search initialRegistered [] [("account_id", (7 : Int))]
        = Except.error (SearchError.invalidFilter k2))
    ∧ ∀ res, search initialRegistered [] [("account_id", (7 : Int))]
        ≠ Except.ok res :=
  c1_unregistered_filter_key_raises [] [("account_id", 7)] "account_id" 7
    (by simp) (by decide)

/-- C2 counterexample: the load_posts.py entry point performs a Knowledge
Store write, and its trace contains no initialization before it —
`initialize_knowledge_filters` is never called in that script — so it is
not the case that in every execution initialization precedes every store
write. -/
theorem c2_counterexample :
    TraceEvent.storeWrite ∈ loadPostsTrace [sampleItem]
    ∧ allOpsInitialized (loadPostsTrace [sampleItem]) = false := by
  constructor
  · decide
  · rfl

/-- C2 amended: initialization precedes the query in the agent.py entry
point, but the load_posts.py entry point never initializes — its trace
contains no `initFilters` event at all, and on any non-empty batch it
performs writes that no initialization precedes. -/
theorem c2_amended_initialization_order :
    allOpsInitialized agentTrace = true
    ∧ (∀ items : List LoadItem, TraceEvent.initFilters ∉ loadPostsTrace items)
    ∧ (∀ items : List LoadItem, items ≠ [] →
        allOpsInitialized (loadPostsTrace items) = false) := by
  refine ⟨rfl, ?_, ?_⟩
  · intro items
    simp [loadPostsTrace]
  · intro items hne
    cases items with
    | nil => exact absurd rfl hne
    | cons i is =>
      cases h : i.loadFails with
      | true =>
        simp [loadPostsTrace, loadAttempts, h, allOpsInitialized,
          opsInitializedFrom]
      | false =>
        simp [loadPostsTrace, loadAttempts, h, allOpsInitialized,
          opsInitializedFrom]

/-- C2 witness: the amended statement at the two concrete runs. -/
theorem c2_amended_initialization_order_witness :
    allOpsInitialized agentTrace = true
    ∧ allOpsInitialized (loadPostsTrace [failingItem]) = false :=
  ⟨c2_amended_initialization_order.1,
   c2_amended_initialization_order.2.2 [failingItem] (by simp)⟩

/-- C3 counterexample: a two-record batch whose first `load_documents`
call raises loads nothing at all — the remaining record, whose own call
would have succeeded, is never ingested — so a per-record failure is not
isolated and does abort the rest of the batch. -/
theorem c3_counterexample :
    (load_posts [failingItem, okItem]).loaded = []
    ∧ okItem.loadFails = false :=
  ⟨rfl, rfl⟩

/-- C3 amended: a failure while ingesting one record is caught and
reported and the batch job always exits with code 0, but the failure is
not isolated: the records after the first failing one are not ingested
(the single `try` of `load_posts` wraps the whole loading loop, so the
first exception ends it). The store receives exactly the documents of the
longest failure-free prefix of the batch. -/
theorem c3_amended_failure_aborts_rest (items : List LoadItem) :
    (load_posts items).exitCode = 0
    ∧ (load_posts items).loaded
        = (items.takeWhile (fun i => !i.loadFails)).map LoadItem.doc := by
  have hfst := loadLoop_fst items
  by_cases hempty : items.isEmpty
  · have hnil : items = [] := List.isEmpty_iff.mp hempty
    subst hnil
    exact ⟨rfl, rfl⟩
  · rw [← hfst]
    cases heq : loadLoop items with
    | mk ds e =>
      cases e with
      | none => simp [load_posts, hempty, heq]
      | some m => simp [load_posts, hempty, heq]

/-- C4: a directory of `n` JSON files of which exactly one is malformed
(and every other file is a valid record file, i.e. processes successfully)
yields exactly `n - 1` documents and exactly one reported error, and every
valid file still contributes its document — the bad file does not abort
the processing of the remaining files. -/
theorem c4_one_malformed_file (files : List JFile) (n : Nat)
    (hlen : files.length = n)
    (hone : files.countP (fun f => isMalformedFile f) = 1)
    (hrest : ∀ f ∈ files, isMalformedFile f = false → (processFile f).isOk = true) :
    (generate_documents files).1.length = n - 1
    ∧ (generate_documents files).2 = 1
    ∧ (generate_documents files).1
        = files.filterMap (fun f => (processFile f).toOption) := by
  have heq := generate_documents_eq files
  have herr : (generate_documents files).2 = 1 := by
    rw [heq]
    rw [List.countP_congr (q := fun f => isMalformedFile f) ?_]
    · exact hone
    · intro f hf
      constructor
      · intro hnot
        by_contra hmal
        have hmal2 : isMalformedFile f = false := by
          cases hm : isMalformedFile f with
          | true => exact absurd hm hmal
          | false => rfl
        have := hrest f hf hmal2
        rw [this] at hnot
        exact Bool.noConfusion hnot
      · intro hmal
        cases hpf : processFile f with
        | ok d =>
          exfalso
          cases f with
          | mk nm c =>
            cases c with
            | malformed raw => exact Except.noConfusion hpf
            | record r => exact Bool.noConfusion hmal
        | error e => rfl
  have htot := generate_documents_total files
  refine ⟨?_, herr, ?_⟩
  · rw [herr] at htot
    omega
  · rw [heq]

/-- C4 witness: three concrete files, one malformed among two valid
records. -/
theorem c4_one_malformed_file_witness :
    (generate_documents [goodFileA, badFile, goodFileB]).1.length = 3 - 1
    ∧ (generate_documents [goodFileA, badFile, goodFileB]).2 = 1
    ∧ (generate_documents [goodFileA, badFile, goodFileB]).1
        = [goodFileA, badFile, goodFileB].filterMap
            (fun f => (processFile f).toOption) := by
  refine c4_one_malformed_file [goodFileA, badFile, goodFileB] 3 rfl (by rfl) ?_
  intro f hf hmal
  fin_cases hf
  · rfl
  · exact Bool.noConfusion hmal
  · rfl

/-- C5: on a record containing the keys `body` and `title`,
`create_document_metadata` returns the document whose content is the body
and whose name is the title, with `tags`/`reactions`/`views` metadata
taken from the record and defaulting to empty list / empty mapping / `0`,
and the filter mapping `user_id` to the record `userId`, defaulting to
`0`. -/
theorem c5_create_document_metadata (r : List (String × JValue))
    (b t : JValue) (hb : jget r "body" = some b) (ht : jget r "title" = some t) :
    create_document_metadata r
      = Except.ok
          ({ content := b
             name := t
             meta_data :=
               [("tags", (jget r "tags").getD (.arr [])),
                ("reactions", (jget r "reactions").getD (.obj [])),
                ("views", (jget r "views").getD (.num 0))] },
           [("user_id", (jget r "userId").getD (.num 0))]) := by
  unfold create_document_metadata
  rw [hb, ht]

/-- C5 witness: the full concrete record and the record carrying only the
required fields, where the defaults kick in. -/
theorem c5_create_document_metadata_witness :
    create_document_metadata demoRecordBare
      = Except.ok
          ({ content := .str "B2"
             name := .str "T2"
             meta_data :=
               [("tags", (jget demoRecordBare "tags").getD (.arr [])),
                ("reactions", (jget demoRecordBare "reactions").getD (.obj [])),
                ("views", (jget demoRecordBare "views").getD (.num 0))] },
           [("user_id", (jget demoRecordBare "userId").getD (.num 0))]) :=
  c5_create_document_metadata demoRecordBare (.str "B2") (.str "T2") rfl rfl

/-- Unfolding of the writing loop on a list of object posts: one file per
post, in order, named by `postFileName`, and the loop falls through to the
implicit `return None`. -/
theorem writeLoop_all_obj (posts : List JValue) (acc : List (String × JValue))
    (h : ∀ p ∈ posts, isObj p = true) :
    writeLoop posts acc
      = { files := acc.reverse ++ posts.map (fun p => (postFileName p, p))
          outcome := .returned .null } := by
  induction posts generalizing acc with
  | nil => simp [writeLoop]
  | cons p ps ih =>
    have hp : isObj p = true := h p (List.mem_cons_self p ps)
    have hps : ∀ q ∈ ps, isObj q = true := fun q hq => h q (List.mem_cons_of_mem p hq)
    cases p with
    | obj fields =>
      rw [show writeLoop (JValue.obj fields :: ps) acc
            = writeLoop ps ((postFileName (JValue.obj fields), JValue.obj fields) :: acc)
          from rfl]
      rw [ih _ hps]
      simp
    | null => simp [isObj] at hp
    | bool b => simp [isObj] at hp
    | num n => simp [isObj] at hp
    | str s => simp [isObj] at hp
    | arr xs => simp [isObj] at hp

/-- C6 counterexample: on the concrete response carrying one post, the
return value of `fetch_and_save_posts` is the Python `None`, not the
fetched list of records — the function body has no `return` statement. -/
theorem c6_counterexample :
    (fetch_and_save_posts demoData).outcome = SaveOutcome.returned JValue.null
    ∧ SaveOutcome.returned JValue.null
        ≠ SaveOutcome.returned (JValue.arr [demoPost]) := by
  refine ⟨rfl, ?_⟩
  simp

/-- C6 amended: on a successful run (the response object holds a list of
record objects), `fetch_and_save_posts` takes the list as-is — it writes
one file per record, in order, each holding the unmodified record — but
its return value is `None`, not the fetched sequence. -/
theorem c6_amended_writes_posts_returns_none
    (data : List (String × JValue)) (posts : List JValue)
    (hposts : jget data "posts" = some (.arr posts))
    (hobj : ∀ p ∈ posts, isObj p = true) :
    (fetch_and_save_posts data).files = posts.map (fun p => (postFileName p, p))
    ∧ (fetch_and_save_posts data).outcome = SaveOutcome.returned JValue.null := by
  unfold fetch_and_save_posts
  rw [hposts]
  simp only [Option.getD_some]
  rw [writeLoop_all_obj posts [] hobj]
  simp

/-- C6 witness: the amended statement at the concrete one-post response. -/
theorem c6_amended_writes_posts_returns_none_witness :
    (fetch_and_save_posts demoData).files
        = [demoPost].map (fun p => (postFileName p, p))
    ∧ (fetch_and_save_posts demoData).outcome = SaveOutcome.returned JValue.null :=
  c6_amended_writes_posts_returns_none demoData [demoPost] rfl (by decide)

/-- C10: a decoded response that is valid JSON but has no `posts` field,
or whose `posts` field is the empty list, makes `fetch_and_save_posts`
write zero files and complete normally (returning `None`, raising
nothing): the missing list field is not a decode failure, it just defaults
to the empty list. -/
theorem c10_missing_posts_writes_nothing (data : List (String × JValue))
    (h : jget data "posts" = none ∨ jget data "posts" = some (.arr [])) :
    fetch_and_save_posts data
      = { files := [], outcome := .returned .null } := by
  cases h with
  | inl h =>
    unfold fetch_and_save_posts
    rw [h]
    rfl
  | inr h =>
    unfold fetch_and_save_posts
    rw [h]
    rfl

/-- C10 witness: the concrete response without a `posts` field and the
concrete response with an empty `posts` list. -/
theorem c10_missing_posts_writes_nothing_witness :
    fetch_and_save_posts demoDataNoPosts
      = { files := [], outcome := .returned .null }
    ∧ fetch_and_save_posts [("posts", JValue.arr [])]
      = { files := [], outcome := .returned .null } :=
  ⟨c10_missing_posts_writes_nothing demoDataNoPosts (Or.inl rfl),
   c10_missing_posts_writes_nothing [("posts", JValue.arr [])] (Or.inr rfl)⟩

/-- Concatenating the sentence units produced by the segmentation scan
restores the scanned text after the pending fragment. -/
theorem segUnits_flatten (cs : List Char) (acc : List Char) :
    (segUnits cs acc).flatten = acc.reverse ++ cs := by
  induction cs generalizing acc with
  | nil =>
    cases acc with
    | nil => rfl
    | cons a as => simp [segUnits]
  | cons c cs ih =>
    by_cases h : isSentenceEnd c
    · simp [segUnits, h, ih]
    · simp [segUnits, h, ih]

/-- Concatenating the texts of the groups built by the greedy merging loop
restores the open chunk followed by the remaining units. -/
theorem groupGo_flatten (keep : List (List Char) → List Char → Bool)
    (us : List (List Char)) (cur : List (List Char)) :
    ((groupGo keep cur us).map List.flatten).flatten
      = cur.flatten ++ us.flatten := by
  induction us generalizing cur with
  | nil => simp [groupGo]
  | cons u us ih =>
    by_cases h : keep cur u
    · simp [groupGo, h, ih]
    · simp [groupGo, h, ih]

/-- Concatenating the texts of all groups restores the unit sequence. -/
theorem groupUnits_flatten (keep : List (List Char) → List Char → Bool)
    (us : List (List Char)) :
    ((groupUnits keep us).map List.flatten).flatten = us.flatten := by
  cases us with
  | nil => rfl
  | cons u us => simpa using groupGo_flatten keep us [u]

/-- Projecting the texts back out of the indexed chunks gives the chunk
text list. -/
theorem enumChunks_text (l : List (List Char)) :
    (l.enum.map (fun it => ({ text := it.2, sequence_index := it.1 } : Chunk))).map
        Chunk.text = l := by
  rw [List.map_map]
  have hc : (Chunk.text ∘ fun it : Nat × List Char =>
      ({ text := it.2, sequence_index := it.1 } : Chunk)) = Prod.snd := by
    funext it
    rfl
  rw [hc]
  exact List.enum_map_snd l

/-- Projecting the indices back out of the indexed chunks gives the
positions `0, 1, 2, …`. -/
theorem enumChunks_seq (l : List (List Char)) :
    (l.enum.map (fun it => ({ text := it.2, sequence_index := it.1 } : Chunk))).map
        Chunk.sequence_index = List.range l.length := by
  rw [List.map_map]
  have hc : (Chunk.sequence_index ∘ fun it : Nat × List Char =>
      ({ text := it.2, sequence_index := it.1 } : Chunk)) = Prod.fst := by
    funext it
    rfl
  rw [hc]
  exact List.enum_map_fst l

/-- C8: for every merge decision function and every document content,
concatenating the chunk texts in `sequence_index` order (the chunks are
produced with `sequence_index` equal to their position) reproduces the
content exactly, and empty content yields zero chunks. -/
theorem c8_chunk_concat_reproduces_content
    (keep : List (List Char) → List Char → Bool) (content : List Char) :
    ((semanticChunk keep content).map Chunk.text).flatten = content
    ∧ (semanticChunk keep content).map Chunk.sequence_index
        = List.range ((semanticChunk keep content).length)
    ∧ (content = [] → semanticChunk keep content = []) := by
  refine ⟨?_, ?_, ?_⟩
  · calc ((semanticChunk keep content).map Chunk.text).flatten
        = ((groupUnits keep (segUnits content [])).map List.flatten).flatten := by
          rw [show (semanticChunk keep content).map Chunk.text
              = (groupUnits keep (segUnits content [])).map List.flatten from
            enumChunks_text _]
      _ = (segUnits content []).flatten := groupUnits_flatten keep _
      _ = content := by simpa using segUnits_flatten content []
  · have hlen : (semanticChunk keep content).length
        = ((groupUnits keep (segUnits content [])).map List.flatten).length := by
      simp [semanticChunk, List.length_map, List.enum_length]
    rw [hlen]
    exact enumChunks_seq _
  · intro h
    subst h
    rfl

/-- C8 witness: a two-sentence content under the always-merge decision,
and the empty content. -/
theorem c8_chunk_concat_reproduces_content_witness :
    ((semanticChunk (fun _ _ => true) ("Hi. Bye.".data)).map Chunk.text).flatten
        = "Hi. Bye.".data
    ∧ semanticChunk (fun _ _ => true) ([] : List Char) = [] :=
  ⟨(c8_chunk_concat_reproduces_content (fun _ _ => true) ("Hi. Bye.".data)).1,
   (c8_chunk_concat_reproduces_content (fun _ _ => true) ([] : List Char)).2.2 rfl⟩

end Rag
